import Mathlib

/-!
Verification development for the VN-Go2-UI teleoperation bridge.

Shallow embedding of the Python sources over exact rational arithmetic:
- src/src/robot/go2_client.py   (Direct SDK transport)
- src/src/robot/ws_client.py    (Relay WebSocket transport)
- src/src/robot/webrtc_client.py (PeerConnection transport)
- src/src/robot/go2_commands.py (topic names and api ids)
- src/src/robot/state.py        (RobotState data model)
- src/src/controller/gamepad.py (input source)
- src/src/app.py                (control loop / command mapper)
- src/jetson/bridge_server.py   (relay-side message handler)

Python floats are embedded as rationals; side effects (SDK calls, socket
sends, data-channel publications) are embedded as explicit traces.
-/

namespace VNGo2

/-- Clamp a value into the interval lo..hi, written as the Python idiom
max(lo, min(hi, v)) used by Go2Client.move. -/
def clampQ (lo hi v : ℚ) : ℚ := max lo (min hi v)

/-- MoveCommand dataclass of go2_client.py: vx, vy, vyaw velocities. -/
structure MoveCommand where
  vx : ℚ := 0
  vy : ℚ := 0
  vyaw : ℚ := 0
  deriving Repr, DecidableEq

/-! ## Go2Client (Direct SDK/DDS transport), src/src/robot/go2_client.py -/

/-- Go2Client.MAX_VX speed limit (1.5 m/s). -/
def MAX_VX : ℚ := 3/2
/-- Go2Client.MAX_VY speed limit (0.5 m/s). -/
def MAX_VY : ℚ := 1/2
/-- Go2Client.MAX_VYAW speed limit (1.5 rad/s). -/
def MAX_VYAW : ℚ := 3/2

/-- One call into the vendor sport SDK, as dispatched by Go2Client and by
the jetson bridge server. The move constructor carries the velocities
passed to sportClient.Move. -/
inductive SdkCmd where
  | standUp
  | standDown
  | balanceStand
  | recoveryStand
  | stopMove
  | damp
  | hello
  | stretchCmd
  | move (vx vy vyaw : ℚ)
  deriving Repr, DecidableEq

/-- The clamped velocity triple Go2Client.move builds before storing it in
_lastMoveCmd and passing it to sportClient.Move (go2_client.py lines
221-224). -/
def go2moveArgs (vx vy vyaw : ℚ) : MoveCommand :=
  { vx := clampQ (-MAX_VX) MAX_VX vx
    vy := clampQ (-MAX_VY) MAX_VY vy
    vyaw := clampQ (-MAX_VYAW) MAX_VYAW vyaw }

/-- SDK calls issued by Go2Client.move. The flag real stands for
"self._sportClient is set and not self._simulationMode"; in simulation
mode nothing is sent. -/
def go2move (real : Bool) (vx vy vyaw : ℚ) : List SdkCmd :=
  if real then
    [SdkCmd.move (go2moveArgs vx vy vyaw).vx (go2moveArgs vx vy vyaw).vy
      (go2moveArgs vx vy vyaw).vyaw]
  else []

/-- SDK calls issued by Go2Client._sendSportCmd for one named command:
forwarded to the SDK when real, only logged otherwise. -/
def go2sendSportCmd (real : Bool) (c : SdkCmd) : List SdkCmd :=
  if real then [c] else []

/-- Go2Client.stopMove: sends STOP_MOVE and then move(0, 0, 0)
(go2_client.py lines 251-254). -/
def go2stopMove (real : Bool) : List SdkCmd :=
  go2sendSportCmd real SdkCmd.stopMove ++ go2move real 0 0 0

/-- Go2Client.damp. -/
def go2damp (real : Bool) : List SdkCmd :=
  go2sendSportCmd real SdkCmd.damp

/-- Go2Client.emergencyStop: stopMove() followed by damp()
(go2_client.py lines 268-276). -/
def go2emergencyStop (real : Bool) : List SdkCmd :=
  go2stopMove real ++ go2damp real

/-! ## Gamepad input state and the control loop of src/src/app.py -/

/-- Analog portion of GamepadState (gamepad.py). Buttons and the d-pad are
not consumed by the motion path and are modelled separately as discrete
events. -/
structure GamepadState where
  connected : Bool := false
  leftStickX : ℚ := 0
  leftStickY : ℚ := 0
  rightStickX : ℚ := 0
  rightStickY : ℚ := 0
  leftTrigger : ℚ := 0
  rightTrigger : ℚ := 0
  deriving Repr, DecidableEq

/-- Go2ControllerApp.BASE_SPEED_VX (0.8 m/s). -/
def BASE_SPEED_VX : ℚ := 4/5
/-- Go2ControllerApp.BASE_SPEED_VY (0.3 m/s). -/
def BASE_SPEED_VY : ℚ := 3/10
/-- Go2ControllerApp.BASE_SPEED_VYAW (0.8 rad/s). -/
def BASE_SPEED_VYAW : ℚ := 4/5
/-- Go2ControllerApp.BOOST_MULTIPLIER (1.5). -/
def BOOST_MULTIPLIER : ℚ := 3/2

/-- Trigger boost applied to vx by Go2ControllerApp._controlLoop
(app.py lines 372-376): each trigger above 0.1 multiplies vx in turn. -/
def boostedVx (g : GamepadState) (vx : ℚ) : ℚ :=
  let vx1 := if 1/10 < g.rightTrigger then
      vx * (1 + g.rightTrigger * (BOOST_MULTIPLIER - 1)) else vx
  if 1/10 < g.leftTrigger then
    vx1 * (-(1 + g.leftTrigger * (BOOST_MULTIPLIER - 1))) else vx1

/-- The motion command computed by Go2ControllerApp._controlLoop
(app.py lines 365-379) from the gamepad state and the speed multiplier. -/
def controlLoopCmd (g : GamepadState) (mult : ℚ) : MoveCommand :=
  { vx := boostedVx g (-g.leftStickY * BASE_SPEED_VX * mult)
    vy := -g.leftStickX * BASE_SPEED_VY * mult
    vyaw := -g.rightStickX * BASE_SPEED_VYAW * mult }

/-- The dispatch guards of _controlLoop (app.py lines 358-363): nothing is
sent unless the app is connected, a robot client exists, and the gamepad
is connected. -/
def controlLoopDispatch (appConnected hasClient : Bool) (g : GamepadState)
    (mult : ℚ) : Option MoveCommand :=
  if !(appConnected && hasClient) then none
  else if !g.connected then none
  else some (controlLoopCmd g mult)

/-! ## Speed multiplier events (app.py _onGamepadButton, lines 345-350) -/

/-- LB / RB press events acting on the speed multiplier. -/
inductive SpeedEvent where
  | lb
  | rb
  deriving Repr, DecidableEq

/-- Effect of one LB/RB press on the speed multiplier: LB decrements by
0.1 with floor 0.3, RB increments by 0.1 with ceiling 1.5. -/
def stepMultiplier (m : ℚ) : SpeedEvent → ℚ
  | SpeedEvent.lb => max (3/10) (m - 1/10)
  | SpeedEvent.rb => min (3/2) (m + 1/10)

/-- Speed multiplier after a sequence of LB/RB presses, starting at the
initial value 1.0 set in Go2ControllerApp.__init__. -/
def runMultiplier (evs : List SpeedEvent) : ℚ :=
  evs.foldl stepMultiplier 1

/-! ## WebSocketClient (Relay transport), src/src/robot/ws_client.py -/

/-- One JSON message of the relay wire protocol (client to server). -/
inductive WsMsg where
  | move (vx vy vyaw : ℚ)
  | standUp
  | standDown
  | balanceStand
  | recoveryStand
  | stopMove
  | damp
  | emergencyStop
  | getState
  | ping
  deriving Repr, DecidableEq

/-- Observable state of a WebSocketClient: the connected flag, the
outbound _commandQueue, and the messages already transmitted over the
socket by the send loop. -/
structure WsClientState where
  connected : Bool := false
  queue : List WsMsg := []
  sent : List WsMsg := []
  deriving Repr, DecidableEq

/-- WebSocketClient._sendCommand (ws_client.py lines 283-290): the command
is put on the queue unconditionally; the connected flag is not consulted
and no error is raised. -/
def wsSendCommand (st : WsClientState) (m : WsMsg) : WsClientState :=
  { st with queue := st.queue ++ [m] }

/-- WebSocketClient.move: enqueues a move message carrying the velocities
unmodified (ws_client.py lines 296-310). -/
def wsMove (st : WsClientState) (vx vy vyaw : ℚ) : WsClientState :=
  wsSendCommand st (WsMsg.move vx vy vyaw)

/-- WebSocketClient.emergencyStop: enqueues a single emergencyStop
message (ws_client.py lines 336-338). -/
def wsEmergencyStop (st : WsClientState) : WsClientState :=
  wsSendCommand st WsMsg.emergencyStop

/-- One iteration of WebSocketClient._sendLoop: while connected it pops
the oldest queued command and writes it to the socket; while disconnected
the loop is not running and nothing happens. -/
def wsSendLoopStep (st : WsClientState) : WsClientState :=
  if st.connected then
    match st.queue with
    | [] => st
    | m :: rest => { st with queue := rest, sent := st.sent ++ [m] }
  else st

/-- n iterations of the send loop. -/
def wsSendLoopRun (st : WsClientState) : Nat → WsClientState
  | 0 => st
  | n + 1 => wsSendLoopRun (wsSendLoopStep st) n

/-- A successful (re)connection of _asyncConnectionLoop: sets connected;
the command queue is a field of the client object and is never cleared. -/
def wsReconnect (st : WsClientState) : WsClientState :=
  { st with connected := true }

/-! ## Bridge server message handler, src/jetson/bridge_server.py -/

/-- SDK calls issued by Go2BridgeServer._move: the velocities are passed
to sportClient.Move unmodified (bridge_server.py lines 277-288). real
stands for "self.sportClient and not self.simulationMode". -/
def bridgeMove (real : Bool) (vx vy vyaw : ℚ) : List SdkCmd :=
  if real then [SdkCmd.move vx vy vyaw] else []

/-- SDK calls issued by Go2BridgeServer._stopMove: a single StopMove (the
bridge does not send a follow-up move; it only zeroes its state copy). -/
def bridgeStopMove (real : Bool) : List SdkCmd :=
  go2sendSportCmd real SdkCmd.stopMove

/-- SDK calls issued by Go2BridgeServer._damp. -/
def bridgeDamp (real : Bool) : List SdkCmd :=
  go2sendSportCmd real SdkCmd.damp

/-- SDK calls issued by Go2BridgeServer._handleMessage for one inbound
command message (bridge_server.py lines 222-275). getState and ping only
produce replies, no SDK call. -/
def bridgeHandleMessage (real : Bool) : WsMsg → List SdkCmd
  | WsMsg.move vx vy vyaw => bridgeMove real vx vy vyaw
  | WsMsg.standUp => go2sendSportCmd real SdkCmd.standUp
  | WsMsg.standDown => go2sendSportCmd real SdkCmd.standDown
  | WsMsg.balanceStand => go2sendSportCmd real SdkCmd.balanceStand
  | WsMsg.recoveryStand => go2sendSportCmd real SdkCmd.recoveryStand
  | WsMsg.stopMove => bridgeStopMove real
  | WsMsg.damp => bridgeDamp real
  | WsMsg.emergencyStop => bridgeStopMove real ++ bridgeDamp real
  | WsMsg.getState => []
  | WsMsg.ping => []

/-! ## WebRTCClient (PeerConnection transport), src/src/robot/webrtc_client.py
and src/src/robot/go2_commands.py -/

/-- Data-channel topic names (go2_commands.py, class RtcTopic). -/
def RtcTopic.SPORT_MOD : String := "rt/api/sport/request"

/-- Obstacle-avoidance request topic. -/
def RtcTopic.OBSTACLES_AVOID : String := "rt/api/obstacles_avoid/request"

/-- api_id constants used by the motion path (go2_commands.py). -/
def SportCmd.DAMP : Nat := 0
/-- STOP_MOVE api id. -/
def SportCmd.STOP_MOVE : Nat := 2
/-- Sport-mode MOVE api id. -/
def SportCmd.MOVE : Nat := 1008
/-- Obstacle-avoidance switch api id. -/
def ObstacleAvoidCmd.SWITCH : Nat := 1001
/-- Obstacle-avoidance assisted MOVE api id. -/
def ObstacleAvoidCmd.MOVE : Nat := 1002

/-- Parameter dictionaries built by the helpers of go2_commands.py. -/
inductive RtcParam where
  | xyz (x y z : ℚ)
  | rpy (roll pitch yaw : ℚ)
  | flag (data : Bool)
  | enable (b : Bool)
  deriving Repr, DecidableEq

/-- move_params helper: the payload is the dict x, y, z with z carrying
the yaw rate. -/
def move_params (x y yaw : ℚ) : RtcParam := RtcParam.xyz x y yaw

/-- obstacle_avoid_params helper. -/
def obstacle_avoid_params (enable : Bool) : RtcParam := RtcParam.enable enable

/-- One publication on the WebRTC data channel:
publish_request_new(topic, request) with request = api_id plus an
optional parameter dict. -/
structure RtcRequest where
  topic : String
  apiId : Nat
  parameter : Option RtcParam
  deriving Repr, DecidableEq

/-- Observable state of a WebRTCClient relevant to command routing. -/
structure WebRTCClientState where
  connected : Bool := false
  obstacleAvoidEnabled : Bool := false
  deriving Repr, DecidableEq

/-- WebRTCClient._sendSportCommand (webrtc_client.py lines 244-269):
publishes on the SPORT_MOD topic, or returns silently when not
connected. -/
def webrtcSendSportCommand (st : WebRTCClientState) (apiId : Nat)
    (p : Option RtcParam) : List RtcRequest :=
  if st.connected then [{ topic := RtcTopic.SPORT_MOD, apiId := apiId, parameter := p }]
  else []

/-- WebRTCClient._sendObstacleAvoidCommand (webrtc_client.py lines
271-296): publishes on the OBSTACLES_AVOID topic, or returns silently
when not connected. -/
def webrtcSendObstacleAvoidCommand (st : WebRTCClientState) (apiId : Nat)
    (p : Option RtcParam) : List RtcRequest :=
  if st.connected then [{ topic := RtcTopic.OBSTACLES_AVOID, apiId := apiId, parameter := p }]
  else []

/-- WebRTCClient.move (webrtc_client.py lines 302-324): routes through
the obstacle-avoidance topic when obstacleAvoidEnabled, through the
sport-mode topic otherwise; the velocities are forwarded unmodified. -/
def webrtcMove (st : WebRTCClientState) (vx vy vyaw : ℚ) : List RtcRequest :=
  if st.obstacleAvoidEnabled then
    webrtcSendObstacleAvoidCommand st ObstacleAvoidCmd.MOVE (some (move_params vx vy vyaw))
  else
    webrtcSendSportCommand st SportCmd.MOVE (some (move_params vx vy vyaw))

/-- WebRTCClient.stopMove publications (lines 348-352). -/
def webrtcStopMove (st : WebRTCClientState) : List RtcRequest :=
  webrtcSendSportCommand st SportCmd.STOP_MOVE none

/-- WebRTCClient.damp publications (lines 354-358). -/
def webrtcDamp (st : WebRTCClientState) : List RtcRequest :=
  webrtcSendSportCommand st SportCmd.DAMP none

/-- WebRTCClient.emergencyStop: stopMove() then damp() (lines 360-364). -/
def webrtcEmergencyStop (st : WebRTCClientState) : List RtcRequest :=
  webrtcStopMove st ++ webrtcDamp st

/-- WebRTCClient.setObstacleAvoid (lines 370-382): publishes the SWITCH
command (when connected) and records the flag unconditionally. -/
def webrtcSetObstacleAvoid (st : WebRTCClientState) (enable : Bool) :
    WebRTCClientState × List RtcRequest :=
  ({ st with obstacleAvoidEnabled := enable },
   webrtcSendObstacleAvoidCommand st ObstacleAvoidCmd.SWITCH
     (some (obstacle_avoid_params enable)))

/-! ## Deadzone shaping and axis reading, src/src/controller/gamepad.py -/

/-- GamepadController._applyDeadzone (gamepad.py lines 337-353): snap to
zero below the threshold, otherwise rescale linearly preserving sign. -/
def applyDeadzone (dz v : ℚ) : ℚ :=
  if |v| < dz then 0
  else
    (if 0 < v then 1 else -1) * ((|v| - dz) / (1 - dz))

/-- XboxAxis.RIGHT_X axis index (gamepad.py). -/
def XboxAxis.RIGHT_X : Nat := 2
/-- XboxAxis.RIGHT_Y axis index. -/
def XboxAxis.RIGHT_Y : Nat := 3

/-- Axis-reading portion of GamepadController._updateState (gamepad.py
lines 285-311): sticks through the deadzone, triggers mapped by axis
count. axis i is the raw value reported by the joystick for axis i. -/
def gamepadReadAxes (numAxes : Nat) (axis : Nat → ℚ) (dz : ℚ)
    (s : GamepadState) : GamepadState :=
  let s1 := if 2 ≤ numAxes then
      { s with leftStickX := applyDeadzone dz (axis 0)
               leftStickY := applyDeadzone dz (axis 1) }
    else s
  let s2 := if 4 ≤ numAxes then
      { s1 with
        rightStickX := applyDeadzone dz (axis (if numAxes ≤ 4 then 2 else XboxAxis.RIGHT_X))
        rightStickY := applyDeadzone dz (axis (if numAxes ≤ 4 then 3 else XboxAxis.RIGHT_Y)) }
    else s1
  if 6 ≤ numAxes then
    { s2 with leftTrigger := (axis 4 + 1) / 2, rightTrigger := (axis 5 + 1) / 2 }
  else if 5 ≤ numAxes then
    { s2 with leftTrigger := max 0 (axis 4), rightTrigger := max 0 (axis 4) }
  else s2

/-! ## RobotState data model, src/src/robot/state.py -/

/-- RobotMode enumeration (state.py). -/
inductive RobotMode where
  | idle
  | standDown
  | standUp
  | walking
  | running
  | climbing
  | unknown
  deriving Repr, DecidableEq

/-- IMUState dataclass. -/
structure IMUState where
  quaternion : List ℚ := [1, 0, 0, 0]
  gyroscope : List ℚ := [0, 0, 0]
  accelerometer : List ℚ := [0, 0, 981/100]
  rpy : List ℚ := [0, 0, 0]
  temperature : ℚ := 25
  deriving Repr, DecidableEq

/-- MotorState dataclass. -/
structure MotorState where
  motorId : Nat := 0
  mode : Int := 0
  q : ℚ := 0
  dq : ℚ := 0
  ddq : ℚ := 0
  tauEst : ℚ := 0
  temperature : ℚ := 25
  lost : Bool := false
  deriving Repr, DecidableEq

/-- FootState dataclass. -/
structure FootState where
  footId : Nat := 0
  contact : Bool := false
  force : ℚ := 0
  deriving Repr, DecidableEq

/-- RobotState dataclass (state.py lines 119-168). -/
structure RobotState where
  timestamp : ℚ := 0
  connected : Bool := false
  mode : RobotMode := RobotMode.unknown
  batteryLevel : Int := 0
  batteryCurrent : ℚ := 0
  batteryVoltage : ℚ := 0
  batteryTemperature : ℚ := 25
  imu : IMUState := {}
  motors : List MotorState := []
  feet : List FootState := []
  velocity : List ℚ := [0, 0, 0]
  position : List ℚ := [0, 0, 0]
  errorCode : Int := 0
  errorMessage : String := ""
  deriving Repr, DecidableEq

/-- Default motor list built by the RobotState field factory: twelve
motors with ids 0..11. -/
def initMotors : List MotorState :=
  (List.range 12).map fun i => { motorId := i }

/-- Default foot list built by the RobotState field factory: four feet
with ids 0..3. -/
def initFeet : List FootState :=
  (List.range 4).map fun i => { footId := i }

/-- A freshly constructed RobotState(). -/
def RobotState.init : RobotState :=
  { motors := initMotors, feet := initFeet }

/-- A single motor passes the health check of RobotState.isHealthy when
its temperature is at most 80 degrees and its communication is not
lost. -/
def motorOk (m : MotorState) : Bool :=
  !(decide (80 < m.temperature)) && !m.lost

/-- RobotState.isHealthy (state.py lines 194-209). -/
def RobotState.isHealthy (s : RobotState) : Bool :=
  if s.batteryLevel < 10 then false
  else if s.errorCode ≠ 0 then false
  else s.motors.all motorOk

/-! ## Telemetry updates that rewrite a RobotState in place -/

/-- Rewrite the element at index i of a list with f, leaving the rest and
the length unchanged. This models the Python in-place element mutation
state.feet[i].field = v; Python would raise IndexError out of range,
which the 12-motor / 4-foot invariant rules out. -/
def modifyIdx (l : List α) (i : Nat) (f : α → α) : List α :=
  l.enum.map fun p => if p.1 = i then f p.2 else p.2

/-- Go2Client._updateSimulatedState (go2_client.py lines 333-383).
The transcendental float functions math.sin and math.cos are abstracted
as the rational-valued parameters qsin and qcos; t is the wall-clock
time and lastCmd the last stored move command. -/
def updateSimulatedState (qsin qcos : ℚ → ℚ) (t : ℚ) (lastCmd : MoveCommand)
    (s : RobotState) : RobotState :=
  { s with
    batteryLevel := max 20 (100 - ⌊(t - 1000 * ⌊t / 1000⌋) / 10⌋)
    batteryVoltage := 25 + qsin (t / 10) * (1/2)
    batteryCurrent := 2 + qsin (t / 2) * 1
    imu := { s.imu with
      rpy := [qsin (t * 2) * (5/100), qsin (t * (3/2)) * (3/100), qsin (t * (3/10)) * (1/10)]
      gyroscope := [qcos (t * 2) * (1/10), qcos (t * (3/2)) * (6/100), qcos (t * (3/10)) * (2/10)]
      accelerometer := [qsin t * (1/2), qcos t * (3/10), 981/100 + qsin (t * 3) * (1/10)] }
    motors := s.motors.enum.map fun p =>
      { p.2 with
        q := qsin (t + p.1 * (1/2)) * (3/10)
        dq := qcos (t + p.1 * (1/2)) * (2/10)
        temperature := 35 + qsin (t / 10 + p.1) * 5
        tauEst := qsin (t * 2 + p.1) * 2 }
    feet := s.feet.enum.map fun p =>
      let contact : Bool := (⌊t * 2⌋ + (p.1 : Int)) % 2 = 0
      { p.2 with
        contact := contact
        force := if contact then 50 + qsin (t * 3 + p.1) * 20 else 0 }
    velocity := [lastCmd.vx, lastCmd.vy, lastCmd.vyaw]
    mode := RobotMode.standUp
    timestamp := t }

/-- Decoded payload of a relay state message, the data dict consumed by
WebSocketClient._updateState with the defaults of dict.get applied. The
foot lists keep their arbitrary received length. -/
structure BridgeStateData where
  timestamp : ℚ := 0
  mode : String := "UNKNOWN"
  batteryLevel : Int := 0
  batteryVoltage : ℚ := 0
  batteryCurrent : ℚ := 0
  batteryTemperature : ℚ := 25
  imuRoll : ℚ := 0
  imuPitch : ℚ := 0
  imuYaw : ℚ := 0
  imuGyro : List ℚ := [0, 0, 0]
  imuAccel : List ℚ := [0, 0, 981/100]
  velocityX : ℚ := 0
  velocityY : ℚ := 0
  velocityYaw : ℚ := 0
  footContacts : List Bool := [false, false, false, false]
  footForces : List ℚ := [0, 0, 0, 0]
  deriving Repr, DecidableEq

/-- Mode-string decoding of WebSocketClient._updateState (the modeMap
dict with UNKNOWN default). -/
def wsModeMap (s : String) : RobotMode :=
  if s = "IDLE" then RobotMode.idle
  else if s = "DOWN" then RobotMode.standDown
  else if s = "STAND" then RobotMode.standUp
  else if s = "WALK" then RobotMode.walking
  else if s = "RUN" then RobotMode.running
  else RobotMode.unknown

/-- Degree-to-radian factor 0.0174533 used by _updateState. -/
def DEG2RAD : ℚ := 174533/10000000

/-- WebSocketClient._updateState (ws_client.py lines 229-281): overwrite
the telemetry fields from a decoded state message; the four feet are
updated in place by index. -/
def wsUpdateState (d : BridgeStateData) (s : RobotState) : RobotState :=
  { s with
    timestamp := d.timestamp
    connected := true
    mode := wsModeMap d.mode
    batteryLevel := d.batteryLevel
    batteryVoltage := d.batteryVoltage
    batteryCurrent := d.batteryCurrent
    batteryTemperature := d.batteryTemperature
    imu := { s.imu with
      rpy := [d.imuRoll * DEG2RAD, d.imuPitch * DEG2RAD, d.imuYaw * DEG2RAD]
      gyroscope := d.imuGyro
      accelerometer := d.imuAccel }
    velocity := [d.velocityX, d.velocityY, d.velocityYaw]
    feet := (List.range 4).foldl
      (fun fs i => modifyIdx fs i fun f =>
        { f with
          contact := d.footContacts.getD i false
          force := d.footForces.getD i 0 })
      s.feet }

/-- One telemetry update applied by a client to its RobotState: either
the simulated update of Go2Client or a relay state-message update of
WebSocketClient. -/
inductive TelemetryUpdate where
  | sim (qsin qcos : ℚ → ℚ) (t : ℚ) (lastCmd : MoveCommand)
  | relay (d : BridgeStateData)

/-- Apply one telemetry update. -/
def applyUpdate : TelemetryUpdate → RobotState → RobotState
  | TelemetryUpdate.sim qsin qcos t lastCmd, s => updateSimulatedState qsin qcos t lastCmd s
  | TelemetryUpdate.relay d, s => wsUpdateState d s

/-- RobotState after a sequence of telemetry updates applied to a fresh
RobotState(). -/
def runUpdates (us : List TelemetryUpdate) : RobotState :=
  us.foldl (fun s u => applyUpdate u s) RobotState.init

/-! ## Spec-side command mapper (for the refinement claim about the
control loop) -/

/-- Motion command as the spec describes it: base velocities scaled by
gain and multiplier, with one boost factor per trigger above 0.1, the
two factors compounding. Written from the spec sentence, to be compared
with controlLoopCmd translated from app.py. -/
def specMotionCommand (g : GamepadState) (mult : ℚ) : MoveCommand :=
  { vx := (-g.leftStickY * BASE_SPEED_VX * mult)
      * (if 1/10 < g.rightTrigger then 1 + g.rightTrigger * (BOOST_MULTIPLIER - 1) else 1)
      * (if 1/10 < g.leftTrigger then -(1 + g.leftTrigger * (BOOST_MULTIPLIER - 1)) else 1)
    vy := -g.leftStickX * BASE_SPEED_VY * mult
    vyaw := -g.rightStickX * BASE_SPEED_VYAW * mult }

/-! ## Concrete telemetry states used as health-check inputs -/

/-- A fresh RobotState with battery at 5 percent. -/
def lowBatteryState : RobotState :=
  { RobotState.init with batteryLevel := 5 }

/-- A RobotState with battery 50, no error, all twelve motors at 40
degrees and none lost. -/
def healthyDemoState : RobotState :=
  { RobotState.init with
    batteryLevel := 50
    errorCode := 0
    motors := (List.range 12).map fun i => { motorId := i, temperature := 40, lost := false } }

/-! ## Helper lemmas -/

lemma absMulLe {x y a b : ℚ} (hx : |x| ≤ a) (hy : |y| ≤ b) : |x * y| ≤ a * b := by
  rw [abs_mul]
  exact mul_le_mul hx hy (abs_nonneg y) ((abs_nonneg x).trans hx)

lemma clampQ_le (lo hi v : ℚ) (h : lo ≤ hi) :
    lo ≤ clampQ lo hi v ∧ clampQ lo hi v ≤ hi :=
  ⟨le_max_left _ _, max_le h (min_le_left _ _)⟩

lemma clampQ_abs_le (a v : ℚ) (ha : 0 ≤ a) : |clampQ (-a) a v| ≤ a :=
  abs_le.mpr (clampQ_le (-a) a v (by linarith))

lemma stepMultiplier_bounds (m : ℚ) (e : SpeedEvent)
    (h1 : 3/10 ≤ m) (h2 : m ≤ 3/2) :
    3/10 ≤ stepMultiplier m e ∧ stepMultiplier m e ≤ 3/2 := by
  cases e with
  | lb =>
    refine ⟨le_max_left _ _, max_le (by norm_num) (by linarith)⟩
  | rb =>
    refine ⟨le_min (by norm_num) (by linarith), min_le_left _ _⟩

lemma foldl_stepMultiplier_bounds :
    ∀ (evs : List SpeedEvent) (m : ℚ), 3/10 ≤ m → m ≤ 3/2 →
      3/10 ≤ evs.foldl stepMultiplier m ∧ evs.foldl stepMultiplier m ≤ 3/2 := by
  intro evs
  induction evs with
  | nil => intro m h1 h2; simpa using ⟨h1, h2⟩
  | cons e tl ih =>
    intro m h1 h2
    rw [List.foldl_cons]
    exact ih _ (stepMultiplier_bounds m e h1 h2).1 (stepMultiplier_bounds m e h1 h2).2

/-! ## C4: deadzone shaping -/

/-- C4: with the default threshold 0.15, any raw value below the
threshold in magnitude maps to exactly 0; any value at or above it maps
to (|v| - 0.15) / (1 - 0.15) with the sign of v; the threshold itself
maps to 0, 1.0 maps to 1.0, and the map is continuous at the
threshold. -/
theorem C4_deadzone_shape :
    (∀ v : ℚ, -1 ≤ v → v ≤ 1 →
      (|v| < 3/20 → applyDeadzone (3/20) v = 0) ∧
      (3/20 ≤ |v| →
        applyDeadzone (3/20) v = (if 0 < v then 1 else -1) * ((|v| - 3/20) / (1 - 3/20)))) ∧
    applyDeadzone (3/20) (3/20) = 0 ∧
    applyDeadzone (3/20) 1 = 1 ∧
    (∀ ε : ℚ, 0 < ε → ∃ δ : ℚ, 0 < δ ∧ ∀ v : ℚ, |v - 3/20| < δ →
      |applyDeadzone (3/20) v - applyDeadzone (3/20) (3/20)| < ε) := by
  have habs : |(3/20 : ℚ)| = 3/20 := abs_of_nonneg (by norm_num)
  have hthr : applyDeadzone (3/20) (3/20) = 0 := by
    rw [applyDeadzone, if_neg (by rw [habs]; norm_num), habs,
      if_pos (by norm_num : (0:ℚ) < 3/20)]
    norm_num
  refine ⟨?_, hthr, ?_, ?_⟩
  · intro v _ _
    constructor
    · intro h
      rw [applyDeadzone, if_pos h]
    · intro h
      rw [applyDeadzone, if_neg (not_lt.mpr h)]
  · have habs1 : |(1 : ℚ)| = 1 := abs_of_nonneg (by norm_num)
    rw [applyDeadzone, if_neg (by rw [habs1]; norm_num), habs1,
      if_pos (by norm_num : (0:ℚ) < 1)]
    norm_num
  · intro ε hε
    refine ⟨min (3/20) (ε * (17/20)), lt_min (by norm_num) (by positivity), ?_⟩
    intro v hv
    rw [hthr, sub_zero]
    by_cases hc : |v| < 3/20
    · rw [applyDeadzone, if_pos hc]
      simpa using hε
    · push_neg at hc
      have hv1 : v - 3/20 < ε * (17/20) :=
        lt_of_le_of_lt (le_abs_self _) (lt_of_lt_of_le hv (min_le_right _ _))
      have hv2 : 3/20 - v < 3/20 := by
        have hna := neg_le_abs (v - 3/20)
        have hlt := lt_of_lt_of_le hv (min_le_left (3/20 : ℚ) (ε * (17/20)))
        linarith
      have hvpos : 0 < v := by linarith
      rw [applyDeadzone, if_neg (not_lt.mpr hc), if_pos hvpos, one_mul,
        abs_of_nonneg (le_of_lt hvpos)]
      have hnum : 0 ≤ (v - 3/20) / (1 - 3/20) := by
        apply div_nonneg
        · rw [abs_of_nonneg (le_of_lt hvpos)] at hc; linarith
        · norm_num
      rw [abs_of_nonneg hnum]
      rw [div_lt_iff₀ (by norm_num : (0:ℚ) < 1 - 3/20)]
      calc v - 3/20 < ε * (17/20) := hv1
        _ = ε * (1 - 3/20) := by norm_num

/-! ## C6: speed multiplier invariant -/

/-- C6: starting from 1.0, after any finite sequence of LB (minus 0.1,
floored at 0.3) and RB (plus 0.1, capped at 1.5) press events the speed
multiplier stays within 0.3 and 1.5. -/
theorem C6_speedMultiplier_bounds (evs : List SpeedEvent) :
    3/10 ≤ runMultiplier evs ∧ runMultiplier evs ≤ 3/2 :=
  foldl_stepMultiplier_bounds evs 1 (by norm_num) (by norm_num)

/-! ## C7: isHealthy characterisation -/

/-- C7: isHealthy is false exactly when the battery is below 10 percent,
the error code is nonzero, some motor is above 80 degrees, or some motor
lost communication; in particular battery 5 is unhealthy and battery 50
with no error, all motors at 40 degrees and none lost is healthy. -/
theorem C7_isHealthy_iff :
    (∀ s : RobotState, s.isHealthy = false ↔
      (s.batteryLevel < 10 ∨ s.errorCode ≠ 0 ∨
        ∃ m ∈ s.motors, 80 < m.temperature ∨ m.lost = true)) ∧
    lowBatteryState.isHealthy = false ∧
    healthyDemoState.isHealthy = true := by
  have hmotor : ∀ m : MotorState,
      motorOk m = false ↔ (80 < m.temperature ∨ m.lost = true) := by
    intro m
    by_cases ht : 80 < m.temperature
    · simp [motorOk, ht]
    · cases hl : m.lost
      · simp [motorOk, ht, hl]
      · simp [motorOk, ht, hl]
  refine ⟨?_, by decide, by decide⟩
  intro s
  rw [RobotState.isHealthy]
  split_ifs with h1 h2
  · simp [h1]
  · simp [h2]
  · rw [Bool.eq_false_iff, Ne, List.all_eq_true]
    constructor
    · intro h
      push_neg at h
      obtain ⟨m, hm, hmk⟩ := h
      exact Or.inr (Or.inr ⟨m, hm, (hmotor m).mp (Bool.eq_false_iff.mpr hmk)⟩)
    · intro h hall
      rcases h with h | h | ⟨m, hm, hp⟩
      · exact absurd h h1
      · exact absurd h h2
      · have := hall m hm
        rw [(hmotor m).mpr hp] at this
        cases this

/-! ## C10: five-axis trigger aliasing -/

/-- C10: when the joystick reports exactly 5 axes, the update assigns
max(0, axis 4) to both triggers, so the two trigger values are always
equal after the update. -/
theorem C10_fiveAxisTriggers (axis : Nat → ℚ) (dz : ℚ) (s : GamepadState) :
    (gamepadReadAxes 5 axis dz s).leftTrigger = max 0 (axis 4) ∧
    (gamepadReadAxes 5 axis dz s).rightTrigger = max 0 (axis 4) ∧
    (gamepadReadAxes 5 axis dz s).leftTrigger =
      (gamepadReadAxes 5 axis dz s).rightTrigger := by
  refine ⟨?_, ?_, ?_⟩ <;> simp [gamepadReadAxes]

/-! ## C8: 12 motors and 4 feet invariant -/

lemma length_modifyIdx (l : List α) (i : Nat) (f : α → α) :
    (modifyIdx l i f).length = l.length := by
  simp [modifyIdx]

lemma foldl_modifyIdx_length (g : Nat → α → α) :
    ∀ (is : List Nat) (l : List α),
      (is.foldl (fun l i => modifyIdx l i (g i)) l).length = l.length := by
  intro is
  induction is with
  | nil => intro l; rfl
  | cons i tl ih =>
    intro l
    rw [List.foldl_cons, ih, length_modifyIdx]

lemma applyUpdate_lengths (u : TelemetryUpdate) (s : RobotState) :
    (applyUpdate u s).motors.length = s.motors.length ∧
    (applyUpdate u s).feet.length = s.feet.length := by
  cases u with
  | sim qsin qcos t lastCmd =>
    constructor <;> simp [applyUpdate, updateSimulatedState]
  | relay d =>
    constructor
    · simp [applyUpdate, wsUpdateState]
    · simp only [applyUpdate, wsUpdateState]
      exact foldl_modifyIdx_length
        (fun i f => { f with contact := d.footContacts.getD i false
                             force := d.footForces.getD i 0 })
        (List.range 4) s.feet

lemma foldl_applyUpdate_lengths :
    ∀ (us : List TelemetryUpdate) (s : RobotState),
      (us.foldl (fun s u => applyUpdate u s) s).motors.length = s.motors.length ∧
      (us.foldl (fun s u => applyUpdate u s) s).feet.length = s.feet.length := by
  intro us
  induction us with
  | nil => intro s; exact ⟨rfl, rfl⟩
  | cons u tl ih =>
    intro s
    rw [List.foldl_cons]
    refine ⟨?_, ?_⟩
    · rw [(ih (applyUpdate u s)).1, (applyUpdate_lengths u s).1]
    · rw [(ih (applyUpdate u s)).2, (applyUpdate_lengths u s).2]

/-- C8: a fresh RobotState and the state after any sequence of telemetry
updates (simulated or relay state-message) hold exactly 12 motor entries
and 4 foot entries. -/
theorem C8_stateShape (us : List TelemetryUpdate) :
    RobotState.init.motors.length = 12 ∧ RobotState.init.feet.length = 4 ∧
    (runUpdates us).motors.length = 12 ∧ (runUpdates us).feet.length = 4 := by
  have hm : RobotState.init.motors.length = 12 := by
    simp [RobotState.init, initMotors]
  have hf : RobotState.init.feet.length = 4 := by
    simp [RobotState.init, initFeet]
  refine ⟨hm, hf, ?_, ?_⟩
  · rw [runUpdates, (foldl_applyUpdate_lengths us RobotState.init).1, hm]
  · rw [runUpdates, (foldl_applyUpdate_lengths us RobotState.init).2, hf]

/-! ## C5: the control-loop command formula -/

/-- C5: with the app connected and a robot client present, the control
loop dispatches, for every connected gamepad state, exactly the command
the spec describes: vx = -leftStickY * baseVx * mult, vy = -leftStickX *
baseVy * mult, vyaw = -rightStickX * baseVyaw * mult, vx scaled by
1 + rightTrigger * (boost - 1) when the right trigger exceeds 0.1 and
additionally by -(1 + leftTrigger * (boost - 1)) when the left trigger
exceeds 0.1, the two factors compounding. -/
theorem C5_controlLoopFormula (g : GamepadState) (mult : ℚ)
    (hconn : g.connected = true) :
    controlLoopDispatch true true g mult = some (specMotionCommand g mult) := by
  have hcmd : controlLoopCmd g mult = specMotionCommand g mult := by
    rw [controlLoopCmd, specMotionCommand]
    refine congrArg (fun x => MoveCommand.mk x _ _) ?_
    rw [boostedVx]
    split_ifs with h1 h2 h3 <;> ring
  simp [controlLoopDispatch, hconn, hcmd]

/-- Witness: the C5 formula evaluated at a concrete connected gamepad
state with the right trigger held. -/
theorem C5_controlLoopFormula_witness :
    controlLoopDispatch true true
        { connected := true, leftStickY := -1, rightTrigger := 1 } 1 =
      some (specMotionCommand
        { connected := true, leftStickY := -1, rightTrigger := 1 } 1) :=
  C5_controlLoopFormula { connected := true, leftStickY := -1, rightTrigger := 1 } 1 rfl

/-! ## C2: emergency-stop command sequence -/

lemma go2emergencyStop_true_eq :
    go2emergencyStop true = [SdkCmd.stopMove, SdkCmd.move 0 0 0, SdkCmd.damp] := by
  have hargs : go2moveArgs 0 0 0 = { vx := 0, vy := 0, vyaw := 0 } := by
    have h1 : clampQ (-MAX_VX) MAX_VX 0 = 0 := by
      rw [clampQ, MAX_VX, min_eq_right (by norm_num), max_eq_right (by norm_num)]
    have h2 : clampQ (-MAX_VY) MAX_VY 0 = 0 := by
      rw [clampQ, MAX_VY, min_eq_right (by norm_num), max_eq_right (by norm_num)]
    have h3 : clampQ (-MAX_VYAW) MAX_VYAW 0 = 0 := by
      rw [clampQ, MAX_VYAW, min_eq_right (by norm_num), max_eq_right (by norm_num)]
    rw [go2moveArgs, h1, h2, h3]
  rw [go2emergencyStop, go2stopMove, go2damp, go2move, hargs]
  simp [go2sendSportCmd]

/-- C2 counterexample: in real (non-simulation) mode the Direct variant's
emergencyStop dispatches a Move(0, 0, 0) between StopMove and Damp, so
the dispatched sequence is not stop-move immediately followed by damp. -/
theorem C2_counterexample :
    go2emergencyStop true = [SdkCmd.stopMove, SdkCmd.move 0 0 0, SdkCmd.damp] ∧
    go2emergencyStop true ≠ [SdkCmd.stopMove, SdkCmd.damp] := by
  refine ⟨go2emergencyStop_true_eq, ?_⟩
  rw [go2emergencyStop_true_eq]
  simp

/-- C2 amended: the Direct variant's emergencyStop dispatches StopMove,
then Move(0, 0, 0), then Damp; the Relay client sends a single
emergencyStop message and the bridge server expands it to exactly
StopMove followed by Damp; the connected PeerConnection variant publishes
exactly STOP_MOVE followed by DAMP on the sport topic. -/
theorem C2_emergencyStop_amended :
    go2emergencyStop true = [SdkCmd.stopMove, SdkCmd.move 0 0 0, SdkCmd.damp] ∧
    (∀ st : WsClientState,
      (wsEmergencyStop st).queue = st.queue ++ [WsMsg.emergencyStop] ∧
      (wsEmergencyStop st).sent = st.sent) ∧
    bridgeHandleMessage true WsMsg.emergencyStop = [SdkCmd.stopMove, SdkCmd.damp] ∧
    (∀ oa : Bool, webrtcEmergencyStop { connected := true, obstacleAvoidEnabled := oa } =
      [{ topic := RtcTopic.SPORT_MOD, apiId := SportCmd.STOP_MOVE, parameter := none },
       { topic := RtcTopic.SPORT_MOD, apiId := SportCmd.DAMP, parameter := none }]) := by
  refine ⟨go2emergencyStop_true_eq, ?_, ?_, ?_⟩
  · intro st
    exact ⟨rfl, rfl⟩
  · rfl
  · intro oa
    rfl

/-! ## C3: commands issued while disconnected -/

lemma wsSendLoopRun_drain :
    ∀ (q sent : List WsMsg),
      wsSendLoopRun { connected := true, queue := q, sent := sent } q.length =
        { connected := true, queue := [], sent := sent ++ q } := by
  intro q
  induction q with
  | nil => intro sent; simp [wsSendLoopRun]
  | cons m rest ih =>
    intro sent
    rw [List.length_cons, wsSendLoopRun]
    have hstep : wsSendLoopStep { connected := true, queue := m :: rest, sent := sent } =
        { connected := true, queue := rest, sent := sent ++ [m] } := by
      rw [wsSendLoopStep]
      simp
    rw [hstep, ih (sent ++ [m])]
    simp

/-- C3 counterexample: a standUp sent to a disconnected Relay client is
placed on the queue, and one send-loop iteration after a reconnect
transmits it — so the command is queued and is transmitted after a later
reconnect. -/
theorem C3_counterexample :
    (wsSendCommand { connected := false } WsMsg.standUp).queue = [WsMsg.standUp] ∧
    (wsSendLoopRun (wsReconnect (wsSendCommand { connected := false } WsMsg.standUp)) 1).sent =
      [WsMsg.standUp] := by
  constructor
  · rfl
  · rfl

/-- C3 amended: a command sent while disconnected returns normally with
no error for both variants; the PeerConnection variant silently drops it
(nothing is published and nothing is retained), but the Relay variant
enqueues it, and the queued command is transmitted once the connection is
re-established and the send loop runs. -/
theorem C3_disconnectedSend_amended :
    (∀ (st : WsClientState) (m : WsMsg),
      (wsSendCommand st m).sent = st.sent ∧
      (wsSendCommand st m).queue = st.queue ++ [m]) ∧
    (∀ (q sent : List WsMsg) (m : WsMsg),
      (wsSendLoopRun (wsReconnect (wsSendCommand
          { connected := false, queue := q, sent := sent } m)) (q.length + 1)).sent =
        sent ++ q ++ [m]) ∧
    (∀ (oa : Bool) (vx vy vyaw : ℚ),
      webrtcMove { connected := false, obstacleAvoidEnabled := oa } vx vy vyaw = []) ∧
    (∀ (oa : Bool) (apiId : Nat) (p : Option RtcParam),
      webrtcSendSportCommand { connected := false, obstacleAvoidEnabled := oa } apiId p = [] ∧
      webrtcSendObstacleAvoidCommand { connected := false, obstacleAvoidEnabled := oa } apiId p = []) := by
  refine ⟨fun st m => ⟨rfl, rfl⟩, ?_, ?_, ?_⟩
  · intro q sent m
    have h1 : wsReconnect (wsSendCommand { connected := false, queue := q, sent := sent } m) =
        { connected := true, queue := q ++ [m], sent := sent } := rfl
    have h2 : (q ++ [m]).length = q.length + 1 := by simp
    rw [h1, ← h2, wsSendLoopRun_drain (q ++ [m]) sent]
    simp [List.append_assoc]
  · intro oa vx vy vyaw
    rw [webrtcMove]
    cases oa <;> simp [webrtcSendSportCommand, webrtcSendObstacleAvoidCommand]
  · intro oa apiId p
    exact ⟨by simp [webrtcSendSportCommand], by simp [webrtcSendObstacleAvoidCommand]⟩

/-! ## C9: obstacle-avoidance routing of the PeerConnection move -/

/-- C9 counterexample: with obstacle avoidance enabled but the client not
connected, a move call publishes nothing at all — in particular nothing
on the obstacle-avoidance topic. -/
theorem C9_counterexample :
    webrtcMove { connected := false, obstacleAvoidEnabled := true } 1 0 0 = [] := by
  rw [webrtcMove]
  simp [webrtcSendObstacleAvoidCommand]

/-- C9 amended: for a connected PeerConnection client, every move with
obstacle avoidance enabled publishes exactly one request on the
obstacle-avoidance topic with the obstacle-avoid MOVE api id and nothing
on the sport-mode topic, and every move with it disabled publishes
exactly one request on the sport-mode topic with the sport MOVE api id
and nothing on the obstacle-avoidance topic. -/
theorem C9_obstacleAvoidRouting_amended :
    (∀ vx vy vyaw : ℚ,
      webrtcMove { connected := true, obstacleAvoidEnabled := true } vx vy vyaw =
        [{ topic := RtcTopic.OBSTACLES_AVOID, apiId := ObstacleAvoidCmd.MOVE,
           parameter := some (move_params vx vy vyaw) }] ∧
      ∀ r ∈ webrtcMove { connected := true, obstacleAvoidEnabled := true } vx vy vyaw,
        r.topic ≠ RtcTopic.SPORT_MOD) ∧
    (∀ vx vy vyaw : ℚ,
      webrtcMove { connected := true, obstacleAvoidEnabled := false } vx vy vyaw =
        [{ topic := RtcTopic.SPORT_MOD, apiId := SportCmd.MOVE,
           parameter := some (move_params vx vy vyaw) }] ∧
      ∀ r ∈ webrtcMove { connected := true, obstacleAvoidEnabled := false } vx vy vyaw,
        r.topic ≠ RtcTopic.OBSTACLES_AVOID) := by
  constructor
  · intro vx vy vyaw
    refine ⟨rfl, ?_⟩
    intro r hr
    rw [show webrtcMove { connected := true, obstacleAvoidEnabled := true } vx vy vyaw =
      [{ topic := RtcTopic.OBSTACLES_AVOID, apiId := ObstacleAvoidCmd.MOVE,
         parameter := some (move_params vx vy vyaw) }] from rfl] at hr
    rw [List.mem_singleton] at hr
    rw [hr]
    show RtcTopic.OBSTACLES_AVOID ≠ RtcTopic.SPORT_MOD
    rw [RtcTopic.OBSTACLES_AVOID, RtcTopic.SPORT_MOD]
    decide
  · intro vx vy vyaw
    refine ⟨rfl, ?_⟩
    intro r hr
    rw [show webrtcMove { connected := true, obstacleAvoidEnabled := false } vx vy vyaw =
      [{ topic := RtcTopic.SPORT_MOD, apiId := SportCmd.MOVE,
         parameter := some (move_params vx vy vyaw) }] from rfl] at hr
    rw [List.mem_singleton] at hr
    rw [hr]
    show RtcTopic.SPORT_MOD ≠ RtcTopic.OBSTACLES_AVOID
    rw [RtcTopic.OBSTACLES_AVOID, RtcTopic.SPORT_MOD]
    decide

/-! ## C1: bounds of the command sent by each transport's move -/

/-- A gamepad state with both sticks fully deflected and the right
trigger fully pressed. -/
def fullInputPad : GamepadState :=
  { connected := true, leftStickX := 1, leftStickY := -1,
    rightStickX := 1, rightTrigger := 1 }

lemma boostedVx_abs_le (g : GamepadState) (vx c : ℚ)
    (hlt0 : 0 ≤ g.leftTrigger) (hlt1 : g.leftTrigger ≤ 1)
    (hrt0 : 0 ≤ g.rightTrigger) (hrt1 : g.rightTrigger ≤ 1)
    (hvx : |vx| ≤ c) : |boostedVx g vx| ≤ c * (3/2) * (3/2) := by
  have hc : 0 ≤ c := (abs_nonneg vx).trans hvx
  have hrb : |1 + g.rightTrigger * (BOOST_MULTIPLIER - 1)| ≤ 3/2 := by
    rw [BOOST_MULTIPLIER, abs_le]
    constructor <;> nlinarith
  have hlb : |(-(1 + g.leftTrigger * (BOOST_MULTIPLIER - 1)))| ≤ 3/2 := by
    rw [abs_neg, BOOST_MULTIPLIER, abs_le]
    constructor <;> nlinarith
  rw [boostedVx]
  split_ifs with h1 h2 h3
  · exact absMulLe (absMulLe hvx hrb) hlb
  · have hb := absMulLe hvx hlb
    nlinarith [hb, abs_nonneg (vx * (-(1 + g.leftTrigger * (BOOST_MULTIPLIER - 1))))]
  · have hb := absMulLe hvx hrb
    nlinarith [hb, abs_nonneg (vx * (1 + g.rightTrigger * (BOOST_MULTIPLIER - 1)))]
  · nlinarith [hvx, abs_nonneg vx]

/-- C1 counterexample: full forward stick, full right trigger and speed
multiplier 1.5 make the control loop compute vx = 1.8; the Relay
transport's move transmits that command unclamped over the socket, with
vx outside the 1.5 bound. -/
theorem C1_counterexample :
    controlLoopCmd { connected := true, leftStickY := -1, rightTrigger := 1 } (3/2) =
      { vx := 9/5, vy := 0, vyaw := 0 } ∧
    (wsSendLoopStep (wsMove { connected := true } (9/5) 0 0)).sent =
      [WsMsg.move (9/5) 0 0] ∧
    ¬ |(9/5 : ℚ)| ≤ 3/2 := by
  refine ⟨?_, rfl, ?_⟩
  · rw [controlLoopCmd, boostedVx]
    rw [if_neg (by norm_num), if_pos (by norm_num)]
    rw [BASE_SPEED_VX, BASE_SPEED_VY, BASE_SPEED_VYAW, BOOST_MULTIPLIER]
    norm_num [MoveCommand.mk.injEq]
  · rw [abs_of_nonneg (by norm_num : (0:ℚ) ≤ 9/5)]
    norm_num

/-- C1 amended: the Direct variant clamps inside move, so the values
passed to the SDK always satisfy the bounds, for arbitrary arguments; the
Relay and PeerConnection variants transmit the control-loop command
unmodified, and for sticks in [-1, 1], triggers in [0, 1] and multiplier
in [0.3, 1.5] that command always satisfies the vy bound 0.5 and the vyaw
bound 1.5, while vx is only bounded by 2.7 and can exceed 1.5 under
trigger boost. -/
theorem C1_moveBounds_amended (g : GamepadState) (mult : ℚ)
    (hx : |g.leftStickX| ≤ 1) (hy : |g.leftStickY| ≤ 1) (hrx : |g.rightStickX| ≤ 1)
    (hlt0 : 0 ≤ g.leftTrigger) (hlt1 : g.leftTrigger ≤ 1)
    (hrt0 : 0 ≤ g.rightTrigger) (hrt1 : g.rightTrigger ≤ 1)
    (hm1 : 3/10 ≤ mult) (hm2 : mult ≤ 3/2) :
    (∀ vx vy vyaw : ℚ,
      |(go2moveArgs vx vy vyaw).vx| ≤ 3/2 ∧
      |(go2moveArgs vx vy vyaw).vy| ≤ 1/2 ∧
      |(go2moveArgs vx vy vyaw).vyaw| ≤ 3/2) ∧
    |(controlLoopCmd g mult).vy| ≤ 1/2 ∧
    |(controlLoopCmd g mult).vyaw| ≤ 3/2 ∧
    |(controlLoopCmd g mult).vx| ≤ 27/10 := by
  have hmult : |mult| ≤ 3/2 := abs_le.mpr ⟨by linarith, hm2⟩
  refine ⟨?_, ?_, ?_, ?_⟩
  · intro vx vy vyaw
    refine ⟨?_, ?_, ?_⟩
    · have := clampQ_abs_le MAX_VX vx (by rw [MAX_VX]; norm_num)
      rw [MAX_VX] at this
      exact this
    · have := clampQ_abs_le MAX_VY vy (by rw [MAX_VY]; norm_num)
      rw [MAX_VY] at this
      exact this
    · have := clampQ_abs_le MAX_VYAW vyaw (by rw [MAX_VYAW]; norm_num)
      rw [MAX_VYAW] at this
      exact this
  · show |-g.leftStickX * BASE_SPEED_VY * mult| ≤ 1/2
    have h1 : |-g.leftStickX * BASE_SPEED_VY| ≤ 1 * (3/10) := by
      refine absMulLe (by rwa [abs_neg]) ?_
      rw [BASE_SPEED_VY, abs_of_nonneg (by norm_num : (0:ℚ) ≤ 3/10)]
    have h2 := absMulLe h1 hmult
    calc |-g.leftStickX * BASE_SPEED_VY * mult| ≤ 1 * (3/10) * (3/2) := h2
      _ ≤ 1/2 := by norm_num
  · show |-g.rightStickX * BASE_SPEED_VYAW * mult| ≤ 3/2
    have h1 : |-g.rightStickX * BASE_SPEED_VYAW| ≤ 1 * (4/5) := by
      refine absMulLe (by rwa [abs_neg]) ?_
      rw [BASE_SPEED_VYAW, abs_of_nonneg (by norm_num : (0:ℚ) ≤ 4/5)]
    have h2 := absMulLe h1 hmult
    calc |-g.rightStickX * BASE_SPEED_VYAW * mult| ≤ 1 * (4/5) * (3/2) := h2
      _ ≤ 3/2 := by norm_num
  · show |boostedVx g (-g.leftStickY * BASE_SPEED_VX * mult)| ≤ 27/10
    have h1 : |-g.leftStickY * BASE_SPEED_VX| ≤ 1 * (4/5) := by
      refine absMulLe (by rwa [abs_neg]) ?_
      rw [BASE_SPEED_VX, abs_of_nonneg (by norm_num : (0:ℚ) ≤ 4/5)]
    have h2 := absMulLe h1 hmult
    have h3 := boostedVx_abs_le g (-g.leftStickY * BASE_SPEED_VX * mult)
      (1 * (4/5) * (3/2)) hlt0 hlt1 hrt0 hrt1 h2
    calc |boostedVx g (-g.leftStickY * BASE_SPEED_VX * mult)|
        ≤ 1 * (4/5) * (3/2) * (3/2) * (3/2) := h3
      _ ≤ 27/10 := by norm_num

/-- Witness: the C1 bounds instantiated at full sticks, full right
trigger and multiplier 1.5. -/
theorem C1_moveBounds_witness :
    (∀ vx vy vyaw : ℚ,
      |(go2moveArgs vx vy vyaw).vx| ≤ 3/2 ∧
      |(go2moveArgs vx vy vyaw).vy| ≤ 1/2 ∧
      |(go2moveArgs vx vy vyaw).vyaw| ≤ 3/2) ∧
    |(controlLoopCmd fullInputPad (3/2)).vy| ≤ 1/2 ∧
    |(controlLoopCmd fullInputPad (3/2)).vyaw| ≤ 3/2 ∧
    |(controlLoopCmd fullInputPad (3/2)).vx| ≤ 27/10 :=
  C1_moveBounds_amended fullInputPad (3/2)
    (by simp [fullInputPad]) (by simp [fullInputPad]) (by simp [fullInputPad])
    (by norm_num [fullInputPad]) (by norm_num [fullInputPad])
    (by norm_num [fullInputPad]) (by norm_num [fullInputPad])
    (by norm_num) (by norm_num)

end VNGo2
